import Mathlib

/-!
# Verification of the Starlink SDK token-lifecycle and request-dispatch core

Shallow embedding of `starlink_sdk/auth.py` (TokenManager),
`starlink_sdk/client.py` (StarlinkClient._make_request and the facade
parameter shaping), `starlink_sdk/exceptions.py` (error taxonomy) and
`starlink_sdk/utils.py` (build_query_params), together with theorems
settling the specification claims about them.

Time is modelled as an integer number of seconds (`Int`); the Python code
compares `datetime` values with `<` and adds `timedelta(seconds=n)`, which
integer arithmetic mirrors exactly.  Fallible Python code is modelled with
`Except`, and the network is modelled as an explicit script of outcomes
consumed by the code whenever it performs a network call.
-/

namespace StarlinkSDK

/-! ## Error taxonomy (`exceptions.py` and `auth.AuthenticationError`)

One inductive with a constructor per exception class the core can raise,
each carrying the fields its `__init__` stores.  `client.py` raises
`StarlinkAPIError` and `StarlinkClientError`; `auth.py` raises
`AuthenticationError`.  The four specializations declared in
`exceptions.py` are constructors here as well so that theorems can speak
about which class a surfaced error belongs to. -/

/-- Error body attached to a `StarlinkAPIError`: `client.py` tries
`e.response.json()` and falls back to `e.response.text`. -/
inductive ErrorDetail where
  | jsonDetail (value : String)
  | textDetail (value : String)
deriving DecidableEq, Repr

inductive SDKError where
  | authentication (message : String)
  | api (message : String) (statusCode : Option Nat) (detail : Option ErrorDetail)
  | client (message : String)
  | rateLimit (message : String) (statusCode : Option Nat) (detail : Option ErrorDetail)
      (retryAfter : Option Nat)
  | validation (message : String) (statusCode : Option Nat) (detail : Option ErrorDetail)
  | notFound (message : String) (statusCode : Option Nat) (detail : Option ErrorDetail)
  | permission (message : String) (statusCode : Option Nat) (detail : Option ErrorDetail)
deriving DecidableEq, Repr

/-- `RateLimitError.__init__`: defaults `message="Rate limit exceeded"`,
calls `super().__init__(message, status_code=429, **kwargs)` and stores
`retry_after`. -/
def mkRateLimitError (message : String) (retryAfter : Option Nat)
    (detail : Option ErrorDetail) : SDKError :=
  .rateLimit message (some 429) detail retryAfter

/-- `ValidationError.__init__`: `super().__init__(message, status_code=422, **kwargs)`. -/
def mkValidationError (message : String) (detail : Option ErrorDetail) : SDKError :=
  .validation message (some 422) detail

/-- `NotFoundError.__init__`: `super().__init__(message, status_code=404, **kwargs)`. -/
def mkNotFoundError (message : String) (detail : Option ErrorDetail) : SDKError :=
  .notFound message (some 404) detail

/-- `PermissionError.__init__`: `super().__init__(message, status_code=403, **kwargs)`. -/
def mkPermissionError (message : String) (detail : Option ErrorDetail) : SDKError :=
  .permission message (some 403) detail

/-- Whether the error value belongs to the `RateLimitError` class. -/
def SDKError.isRateLimit : SDKError → Bool
  | .rateLimit _ _ _ _ => true
  | _ => false

/-- Whether the error value belongs to one of the four specialized
`StarlinkAPIError` subclasses (429/422/404/403). -/
def SDKError.isSpecialized : SDKError → Bool
  | .rateLimit _ _ _ _ => true
  | .validation _ _ _ => true
  | .notFound _ _ _ => true
  | .permission _ _ _ => true
  | _ => false

/-- Whether the error value is a plain `StarlinkAPIError` (the base class,
not one of its specializations). -/
def SDKError.isPlainAPIError : SDKError → Bool
  | .api _ _ _ => true
  | _ => false

/-- Whether the error value is an `AuthenticationError`. -/
def SDKError.isAuthentication : SDKError → Bool
  | .authentication _ => true
  | _ => false

/-- Whether the error value is a `StarlinkClientError`. -/
def SDKError.isClient : SDKError → Bool
  | .client _ => true
  | _ => false

/-- The `status_code` field, on the classes that carry one. -/
def SDKError.statusCodeOf : SDKError → Option Nat
  | .api _ sc _ => sc
  | .rateLimit _ sc _ _ => sc
  | .validation _ sc _ => sc
  | .notFound _ sc _ => sc
  | .permission _ sc _ => sc
  | _ => none

/-! ## TokenManager (`auth.py`)

Mutable state `self._token` / `self._token_expires_at` becomes a record
passed and returned explicitly.  Python's truthiness test
`if not self._token` is false for `None` and for the empty string, so the
validity check requires the stored token to be a nonempty `some`. -/

structure TokenManagerState where
  token : Option String
  tokenExpiresAt : Option Int
deriving DecidableEq, Repr

/-- The freshly-constructed manager: `self._token = None`,
`self._token_expires_at = None`. -/
def TokenManagerState.initial : TokenManagerState := ⟨none, none⟩

/-- Outcome of one `POST {base_url}/v1/auth/token` network call, already
split the way `_refresh_token` observes it: a parsed
`{access_token, expires_in}` body on 2xx, an `requests.HTTPError` with a
status code from `raise_for_status()`, or any other exception. -/
inductive RefreshResult where
  | success (accessToken : String) (expiresIn : Int)
  | httpError (status : Nat)
  | otherError (message : String)
deriving DecidableEq, Repr

/-- `TokenManager._is_token_valid`: false when token or expiry is unset
(or the token string is empty, which is falsy in Python), else
`now < expires_at - 30`. -/
def isTokenValid (s : TokenManagerState) (now : Int) : Bool :=
  match s.token, s.tokenExpiresAt with
  | some t, some expiresAt => t ≠ "" && now < expiresAt - 30
  | _, _ => false

/-- Message of the `AuthenticationError` for a non-401/403 HTTP status
from the token endpoint: `f"Token refresh failed: {e.response.status_code}"`. -/
def tokenRefreshFailedStatusMsg (status : Nat) : String :=
  s!"Token refresh failed: {status}"

/-- Message of the `AuthenticationError` wrapping a non-HTTP exception:
`f"Token refresh failed: {str(e)}"`. -/
def tokenRefreshFailedMsg (cause : String) : String :=
  s!"Token refresh failed: {cause}"

/-- `TokenManager._refresh_token`, with the network call's outcome passed
in.  On success it stores the new token and `now + expires_in`; on an
HTTP error it raises `AuthenticationError` (401/403 get dedicated
messages) and leaves the stored fields untouched; any other exception is
wrapped in an `AuthenticationError` as well. -/
def refreshToken (s : TokenManagerState) (now : Int) (r : RefreshResult) :
    TokenManagerState × Except SDKError Unit :=
  match r with
  | .success accessToken expiresIn =>
      ({ token := some accessToken, tokenExpiresAt := some (now + expiresIn) }, .ok ())
  | .httpError status =>
      if status = 401 then (s, .error (.authentication "Invalid API secret"))
      else if status = 403 then (s, .error (.authentication "API secret not authorized"))
      else (s, .error (.authentication (tokenRefreshFailedStatusMsg status)))
  | .otherError message =>
      (s, .error (.authentication (tokenRefreshFailedMsg message)))

/-- Result of one `get_token` call: the state afterwards, the returned
token or raised error, and how many network refresh calls were made
(0 on the cache fast path, 1 otherwise). -/
structure GetTokenResult where
  state : TokenManagerState
  result : Except SDKError String
  refreshCalls : Nat
deriving Repr

/-- `TokenManager.get_token` in single-caller (sequential) form: return the
cached token if `_is_token_valid()`; otherwise take the lock, re-check
(identical outcome when no other thread interleaves), call
`_refresh_token` and return `self._token`. -/
def getToken (s : TokenManagerState) (now : Int) (r : RefreshResult) : GetTokenResult :=
  if isTokenValid s now then ⟨s, .ok (s.token.getD ""), 0⟩
  else if isTokenValid s now then ⟨s, .ok (s.token.getD ""), 0⟩
  else
    match refreshToken s now r with
    | (s', .ok ()) => ⟨s', .ok (s'.token.getD ""), 1⟩
    | (s', .error e) => ⟨s', .error e, 1⟩

/-- Result of one `get_auth_header` call. -/
structure AuthHeaderResult where
  state : TokenManagerState
  result : Except SDKError (String × String)
  refreshCalls : Nat
deriving Repr

/-- `TokenManager.get_auth_header`: `{"Authorization": f"Bearer {token}"}`. -/
def getAuthHeader (s : TokenManagerState) (now : Int) (r : RefreshResult) : AuthHeaderResult :=
  match getToken s now r with
  | ⟨s', .ok t, k⟩ => ⟨s', .ok ("Authorization", "Bearer " ++ t), k⟩
  | ⟨s', .error e, k⟩ => ⟨s', .error e, k⟩

/-! ## Request dispatcher (`StarlinkClient._make_request`)

The network is a script: `outcomes i` is what the `i`-th
`requests.request(...)` call produces (an HTTP response or a raised
`requests.RequestException`), and `script k` is what the `k`-th token
*refresh* network call produces.  `times c` is the clock reading when the
`c`-th `get_auth_header` call runs (call 0 happens before the loop). -/

/-- What one `requests.request(...)` call inside the attempt loop yields:
a response (with its body both as optionally-JSON-parseable and raw text),
or a transport-level `requests.RequestException`.  `requests.HTTPError`
raised by `raise_for_status()` is not an outcome here: the dispatcher
itself raises it from the response. -/
inductive AttemptOutcome where
  | response (status : Nat) (bodyJson : Option String) (bodyText : String)
  | transportError (message : String)
deriving DecidableEq, Repr

structure HttpResponse where
  status : Nat
  bodyJson : Option String
  bodyText : String
deriving DecidableEq, Repr

/-- `requests.Response.ok`: true iff the status code is below 400. -/
def HttpResponse.ok (resp : HttpResponse) : Bool := resp.status < 400

/-- `client.py` error-detail extraction: `e.response.json()` when the body
parses as JSON, else `e.response.text`. -/
def detailOf (bodyJson : Option String) (bodyText : String) : ErrorDetail :=
  match bodyJson with
  | some j => .jsonDetail j
  | none => .textDetail bodyText

/-- The observable result of one `_make_request` call: the returned
response or raised error, the token-manager state afterwards, the number
of refresh network calls performed, and the `Authorization` header value
sent on each attempt (so `attemptHeaders.length` is the number of
attempts actually issued). -/
structure DispatchResult where
  result : Except SDKError HttpResponse
  tmState : TokenManagerState
  refreshCalls : Nat
  attemptHeaders : List String
deriving Repr

/-- `f"Request failed after {self.max_retries} retries"` — the message
raised when the loop falls through. -/
def clientRetriesMsg (maxRetries : Nat) : String :=
  s!"Request failed after {maxRetries} retries"

/-- `f"Request failed after {self.max_retries} retries: {str(e)}"` — the
message raised when the transport fails on the last attempt. -/
def clientRetriesCauseMsg (maxRetries : Nat) (cause : String) : String :=
  s!"Request failed after {maxRetries} retries: {cause}"

/-- `f"API request failed: {e.response.status_code}"`. -/
def apiFailedMsg (status : Nat) : String :=
  s!"API request failed: {status}"

/-- The `for attempt in range(self.max_retries + 1)` loop of
`_make_request`.  `fuel` is the number of loop iterations left, so the
current Python `attempt` index is `maxRetries + 1 - fuel`; `k` counts
refresh network calls made so far, `c` counts `get_auth_header` calls
made so far, and `hdr` is the current `Authorization` header value in
`request_headers`.  Branches, in source order: return the response if
`response.ok`; on 401 call `get_auth_header()` (which raises out of the
loop on failure, `AuthenticationError` being caught by neither `except`
clause), update the header and `continue`; otherwise
`raise_for_status()` raises `requests.HTTPError`, which the first
`except` clause turns into a `StarlinkAPIError`; a
`requests.RequestException` from the transport re-raises as
`StarlinkClientError` only when `attempt == self.max_retries`.  Falling
off the loop raises the final `StarlinkClientError`. -/
def makeRequestLoop (maxRetries : Nat) (outcomes : Nat → AttemptOutcome)
    (script : Nat → RefreshResult) (times : Nat → Int)
    (tm : TokenManagerState) (k c : Nat) (hdr : String) (sent : List String) :
    Nat → DispatchResult
  | 0 => ⟨.error (.client (clientRetriesMsg maxRetries)), tm, k, sent⟩
  | fuel + 1 =>
    match outcomes (maxRetries + 1 - (fuel + 1)) with
    | .response status bodyJson bodyText =>
      if status < 400 then
        ⟨.ok ⟨status, bodyJson, bodyText⟩, tm, k, sent ++ [hdr]⟩
      else if status = 401 then
        let ar := getAuthHeader tm (times c) (script k)
        match ar.result with
        | .error e => ⟨.error e, ar.state, k + ar.refreshCalls, sent ++ [hdr]⟩
        | .ok (_, v) =>
          makeRequestLoop maxRetries outcomes script times ar.state
            (k + ar.refreshCalls) (c + 1) v (sent ++ [hdr]) fuel
      else
        ⟨.error (.api (apiFailedMsg status) (some status)
            (some (detailOf bodyJson bodyText))), tm, k, sent ++ [hdr]⟩
    | .transportError message =>
      if fuel = 0 then
        ⟨.error (.client (clientRetriesCauseMsg maxRetries message)),
          tm, k, sent ++ [hdr]⟩
      else
        makeRequestLoop maxRetries outcomes script times tm k c hdr (sent ++ [hdr]) fuel

/-- `StarlinkClient._make_request`: obtain the auth header (propagating an
`AuthenticationError` with zero attempts issued), seed `request_headers`
with it, then run the attempt loop for `max_retries + 1` iterations. -/
def makeRequest (maxRetries : Nat) (tm : TokenManagerState)
    (times : Nat → Int) (script : Nat → RefreshResult)
    (outcomes : Nat → AttemptOutcome) : DispatchResult :=
  let ar := getAuthHeader tm (times 0) (script 0)
  match ar.result with
  | .error e => ⟨.error e, ar.state, ar.refreshCalls, []⟩
  | .ok (_, v) =>
    makeRequestLoop maxRetries outcomes script times ar.state ar.refreshCalls 1 v []
      (maxRetries + 1)

/-! ## Client construction (`StarlinkClient.__init__`) -/

inductive PyError where
  | typeError (message : String)
  | valueError (message : String)
  | authError (message : String)
deriving DecidableEq, Repr

/-- `StarlinkClient.ENVIRONMENT_URLS`. -/
def ENVIRONMENT_URLS : List (String × String) :=
  [("production", "https://starlink-enterprise-api.spacex.com"),
   ("staging", "https://staging-starlink-enterprise-api.spacex.com"),
   ("development", "http://starlink-api:8000"),
   ("demo", "http://localhost:8000"),
   ("local", "http://localhost:8000")]

/-- Python `str.lower()` (the environment names in play are ASCII). -/
def strLower (s : String) : String := ⟨s.data.map Char.toLower⟩

/-- Python `a or b` on strings: `b` when `a` is `None` or empty. -/
def pyStrOr (a : Option String) (b : String) : String :=
  match a with
  | some s => if s = "" then b else s
  | none => b

/-- Parameter names `TokenManager.__init__` accepts besides `self`
(`base_url`, `api_secret`, `session`). -/
def tokenManagerInitParams : List String := ["base_url", "api_secret", "session"]

/-- Keyword-argument names `StarlinkClient.__init__` supplies in its
`TokenManager(base_url=..., api_secret=..., timeout=timeout)` call. -/
def tokenManagerCallKwargs : List String := ["base_url", "api_secret", "timeout"]

/-- Python call binding: passing a keyword argument that matches no
parameter of the callee raises `TypeError` before the callee body runs. -/
def bindKwargs (params : List String) (kwargs : List String) : Except PyError Unit :=
  match kwargs.find? (fun kw => !params.contains kw) with
  | some kw => .error (.typeError s!"TokenManager got an unexpected keyword argument {kw}")
  | none => .ok ()

structure StarlinkClientState where
  environment : String
  baseUrl : String
deriving DecidableEq, Repr

/-- `StarlinkClient.__init__` up to the point where the API namespaces are
installed: resolve the environment name
(`environment or os.getenv(STARLINK_ENVIRONMENT) or productionString`,
lower-cased), reject names outside `ENVIRONMENT_URLS` with `ValueError`,
then construct the `TokenManager` — whose call binding decides whether
the body is ever reached. -/
def StarlinkClient.init (environment : Option String)
    (envVarEnvironment : Option String) : Except PyError StarlinkClientState :=
  let env := strLower (pyStrOr environment (pyStrOr envVarEnvironment "production"))
  match ENVIRONMENT_URLS.find? (fun p => p.1 = env) with
  | none => .error (.valueError s!"Invalid environment {env}")
  | some p =>
    match bindKwargs tokenManagerInitParams tokenManagerCallKwargs with
    | .error e => .error e
    | .ok () => .ok ⟨env, p.2.dropRightWhile (· = '/')⟩

/-! ## Facade query-parameter shaping (`TerminalsAPI.list`,
`AlertsAPI.list`, `utils.build_query_params`) -/

/-- A query-parameter value as placed in the Python `params` dict: the
facades store the clamped limit as an `int`, `build_query_params`
stringifies everything. -/
inductive ParamValue where
  | intVal (n : Int)
  | strVal (s : String)
deriving DecidableEq, Repr

/-- Python truthiness of an optional string (`if status:`). -/
def pyTruthy (s : Option String) : Bool :=
  match s with
  | some v => v ≠ ""
  | none => false

/-- First value stored under `key` (each key is written at most once by
the facades, so this is the dict lookup). -/
def lookupParam (ps : List (String × ParamValue)) (key : String) : Option ParamValue :=
  (ps.find? (fun p => p.1 = key)).map Prod.snd

/-- `TerminalsAPI.list` parameter dict:
`{'limit': min(max(limit, 1), 500)}`, then optional `status` and
`cursor`. -/
def TerminalsAPI.listParams (status : Option String) (limit : Int)
    (cursor : Option String) : List (String × ParamValue) :=
  let params := [("limit", ParamValue.intVal (min (max limit 1) 500))]
  let params := if pyTruthy status then params ++ [("status", .strVal (status.getD ""))]
    else params
  if pyTruthy cursor then params ++ [("cursor", ParamValue.strVal (cursor.getD ""))]
  else params

/-- `AlertsAPI.list` parameter dict: `status` and the clamped `limit`,
then the optional filters in source order. -/
def AlertsAPI.listParams (status : String) (severity : Option String)
    (terminalId : Option String) (fromTime : Option String) (toTime : Option String)
    (limit : Int) (cursor : Option String) : List (String × ParamValue) :=
  let params := [("status", ParamValue.strVal status),
                 ("limit", ParamValue.intVal (min (max limit 1) 500))]
  let params := if pyTruthy severity then
      params ++ [("severity", ParamValue.strVal (severity.getD ""))] else params
  let params := if pyTruthy terminalId then
      params ++ [("terminal_id", ParamValue.strVal (terminalId.getD ""))] else params
  let params := if pyTruthy fromTime then
      params ++ [("from", ParamValue.strVal (fromTime.getD ""))] else params
  let params := if pyTruthy toTime then
      params ++ [("to", ParamValue.strVal (toTime.getD ""))] else params
  if pyTruthy cursor then params ++ [("cursor", ParamValue.strVal (cursor.getD ""))]
  else params

/-- The `limit` entry written by `utils.build_query_params`:
`params['limit'] = str(min(max(limit, 1), 500))` when `limit is not None`,
no entry otherwise.  (The other entries of that dict use distinct keys and
never touch `'limit'`.) -/
def buildQueryParamsLimit (limit : Option Int) : Option String :=
  match limit with
  | some l => some (toString (min (max l 1) 500))
  | none => none

/-! ## Concurrent `get_token` (interleaving semantics)

`auth.py` guards refresh with `self._refresh_lock = threading.Lock()`.
To reason about concurrent callers we give `get_token` a small-step
semantics: every thread runs the same program, a scheduler (an arbitrary
list of thread ids) picks which thread performs its next step, and the
network call inside `_refresh_token` is split into a *start* step (the
call is in flight from then on) and a *finish* step (its outcome is the
next entry of the refresh script), so that other threads can run — and
observe the in-flight refresh — between the two. A thread picked while
blocked on the lock simply stays put. -/

/-- Program counter of one thread running `get_token`:
`start` = about to run the first `_is_token_valid` check;
`awaitLock` = failed it and is blocked in `self._refresh_lock.acquire()`;
`inCritical` = holds the lock, about to re-run the check;
`refreshing idx` = holds the lock with the refresh network call in
flight, its outcome being entry `idx` of the script;
`doneOk` / `doneErr` = returned a token / raised. -/
inductive ThreadPC where
  | start
  | awaitLock
  | inCritical
  | refreshing (idx : Nat)
  | doneOk (token : String)
  | doneErr (e : SDKError)
deriving DecidableEq, Repr

/-- Shared state of one `TokenManager` plus the program counters of all
callers.  `nextIdx` counts refresh network calls started so far. -/
structure ConcState where
  tm : TokenManagerState
  lock : Option Nat
  nextIdx : Nat
  pcs : Nat → ThreadPC

/-- Pointwise function update (threads are indexed by `Nat`). -/
def updFn (f : Nat → ThreadPC) (i : Nat) (v : ThreadPC) : Nat → ThreadPC :=
  fun j => if j = i then v else f j

/-- One step of thread `i`.  Mirrors `get_token` line by line: the
un-locked validity check, `acquire()`, the re-check under the lock,
then `_refresh_token` (via `refreshToken`, which applies the scripted
outcome to the shared fields) with the lock released on the way out of
the `with` block, successfully or by propagating the raised error. -/
def step (now : Int) (script : Nat → RefreshResult) (gs : ConcState) (i : Nat) : ConcState :=
  match gs.pcs i with
  | .start =>
      if isTokenValid gs.tm now then
        { gs with pcs := updFn gs.pcs i (.doneOk (gs.tm.token.getD "")) }
      else
        { gs with pcs := updFn gs.pcs i .awaitLock }
  | .awaitLock =>
      match gs.lock with
      | none => { gs with lock := some i, pcs := updFn gs.pcs i .inCritical }
      | some _ => gs
  | .inCritical =>
      if isTokenValid gs.tm now then
        { gs with lock := none, pcs := updFn gs.pcs i (.doneOk (gs.tm.token.getD "")) }
      else
        { gs with nextIdx := gs.nextIdx + 1,
                  pcs := updFn gs.pcs i (.refreshing gs.nextIdx) }
  | .refreshing idx =>
      match refreshToken gs.tm now (script idx) with
      | (tm', .ok ()) =>
          { gs with tm := tm', lock := none,
                    pcs := updFn gs.pcs i (.doneOk (tm'.token.getD "")) }
      | (tm', .error e) =>
          { gs with tm := tm', lock := none, pcs := updFn gs.pcs i (.doneErr e) }
  | .doneOk _ => gs
  | .doneErr _ => gs

/-- Run a schedule (list of thread ids, each performing one step). -/
def runSched (now : Int) (script : Nat → RefreshResult) :
    ConcState → List Nat → ConcState
  | gs, [] => gs
  | gs, i :: rest => runSched now script (step now script gs i) rest

/-- A freshly constructed manager with every caller about to enter
`get_token`. -/
def ConcState.initial : ConcState :=
  ⟨TokenManagerState.initial, none, 0, fun _ => .start⟩

/-- Lock-ownership invariant: any thread inside the critical section —
re-checking or with a refresh in flight — is the lock holder. -/
def LockInv (gs : ConcState) : Prop :=
  ∀ i, (gs.pcs i = .inCritical ∨ ∃ idx, gs.pcs i = .refreshing idx) →
    gs.lock = some i

/-! ## Helper lemmas about the token manager -/

/-- If the cached token is valid, `get_token` is a pure cache hit: same
state, the cached token, zero refresh network calls. -/
theorem getToken_of_valid (s : TokenManagerState) (now : Int) (r : RefreshResult)
    (hv : isTokenValid s now = true) :
    getToken s now r = ⟨s, .ok (s.token.getD ""), 0⟩ := by
  simp [getToken, hv]

/-- Cache-hit form of `get_auth_header`. -/
theorem getAuthHeader_of_valid (s : TokenManagerState) (now : Int) (r : RefreshResult)
    (hv : isTokenValid s now = true) :
    getAuthHeader s now r =
      ⟨s, .ok ("Authorization", "Bearer " ++ s.token.getD ""), 0⟩ := by
  simp [getAuthHeader, getToken_of_valid _ _ _ hv]

/-- An invalid token never becomes valid again as time moves forward:
`_is_token_valid` compares against a fixed stored expiry. -/
theorem isTokenValid_false_mono (s : TokenManagerState) (now now₂ : Int)
    (h : isTokenValid s now = false) (hle : now ≤ now₂) :
    isTokenValid s now₂ = false := by
  obtain ⟨tok, exp⟩ := s
  cases tok with
  | none => simp [isTokenValid]
  | some t =>
    cases exp with
    | none => simp [isTokenValid]
    | some e =>
      simp only [isTokenValid, Bool.and_eq_false_iff, decide_eq_false_iff_not,
        not_not, ne_eq, Bool.not_eq_true] at h ⊢
      rcases h with h | h
      · exact Or.inl h
      · refine Or.inr ?_
        simp only [decide_eq_false_iff_not, not_lt] at h ⊢
        omega

/-! ## Claim C2: freshness of tokens returned by `get_token` -/

/-- C2 counterexample: the claim "`get_token` never returns a token that
is expired or within the 30-second skew window, ... for every `expires_in`
the token endpoint may return (including `expires_in <= 30`)" is false.
From the empty cache at time 0, a refresh answering
`{access_token: "abc", expires_in: 10}` makes `get_token` return `"abc"`
with stored expiry 10, yet `0 < 10 - 30` fails — the returned token is
already inside the skew window (and indeed `_is_token_valid` rejects it
immediately). -/
theorem C2_counterexample :
    (getToken TokenManagerState.initial 0 (.success "abc" 10)).result = .ok "abc" ∧
    (getToken TokenManagerState.initial 0 (.success "abc" 10)).state.tokenExpiresAt =
      some 10 ∧
    ¬ ((0 : Int) < 10 - 30) ∧
    isTokenValid (getToken TokenManagerState.initial 0 (.success "abc" 10)).state 0 =
      false :=
  ⟨rfl, rfl, by decide, by decide⟩

/-- C2 (amended): whenever `get_token` returns a token, the stored expiry
satisfies `now < expiresAt - 30` — *provided* any refresh performed by
the call returned `expires_in > 30`.  The guarantee is unconditional on
the cache fast path, but after a successful refresh `get_token` returns
the new token without re-checking freshness, so `expires_in ≤ 30` defeats
it (see the counterexample). -/
theorem C2_freshness_amended (s : TokenManagerState) (now : Int) (r : RefreshResult)
    (t : String)
    (hfresh : ∀ tok n, r = .success tok n → 30 < n)
    (h : (getToken s now r).result = .ok t) :
    ∃ exp, (getToken s now r).state.tokenExpiresAt = some exp ∧ now < exp - 30 := by
  by_cases hv : isTokenValid s now = true
  · rw [getToken_of_valid s now r hv] at h ⊢
    obtain ⟨tok, expo⟩ := s
    cases tok with
    | none => simp [isTokenValid] at hv
    | some tk =>
      cases expo with
      | none => simp [isTokenValid] at hv
      | some e =>
        simp only [isTokenValid, Bool.and_eq_true, decide_eq_true_eq] at hv
        exact ⟨e, rfl, hv.2⟩
  · rw [Bool.not_eq_true] at hv
    cases r with
    | success tok n =>
      have hn : 30 < n := hfresh tok n rfl
      simp only [getToken, hv, Bool.false_eq_true, if_false, refreshToken] at h ⊢
      exact ⟨now + n, rfl, by omega⟩
    | httpError status =>
      simp only [getToken, hv, Bool.false_eq_true, if_false, refreshToken] at h
      by_cases h4 : status = 401 <;> by_cases h3 : status = 403 <;>
        simp [h4, h3] at h
    | otherError message =>
      simp [getToken, hv, refreshToken] at h

/-- Witness for the amended C2 at a concrete input: empty cache, time 0,
refresh answering `expires_in = 3600`. -/
theorem C2_freshness_amended_witness :
    ∃ exp, (getToken TokenManagerState.initial 0 (.success "abc" 3600)).state.tokenExpiresAt =
      some exp ∧ (0 : Int) < exp - 30 :=
  C2_freshness_amended TokenManagerState.initial 0 (.success "abc" 3600) "abc"
    (fun tok n hr => by injection hr with h1 h2; omega) rfl

/-! ## Claim C6: refresh bookkeeping and the 30-second freshness window -/

/-- C6: a successful refresh at time `T0` answering
`{access_token: t, expires_in: n}` stores token `t` with expiry `T0 + n`
and makes `get_auth_header` return `("Authorization", "Bearer t")`; every
later call strictly before `T0 + n - 30` is answered from the cache (same
header, zero refresh network calls, state untouched), and every call at
or after `T0 + n - 30` performs a refresh network call.  (`t` nonempty:
Python's truthiness test in `_is_token_valid` treats the empty string
like a missing token.) -/
theorem C6_refresh_expiry_schedule (s0 : TokenManagerState) (T0 : Int) (t : String)
    (n : Int) (ht : t ≠ "") (h0 : isTokenValid s0 T0 = false) :
    (getAuthHeader s0 T0 (.success t n)).state =
      ⟨some t, some (T0 + n)⟩ ∧
    (getAuthHeader s0 T0 (.success t n)).result =
      .ok ("Authorization", "Bearer " ++ t) ∧
    (getAuthHeader s0 T0 (.success t n)).refreshCalls = 1 ∧
    (∀ now r, now < T0 + n - 30 →
      getAuthHeader ⟨some t, some (T0 + n)⟩ now r =
        ⟨⟨some t, some (T0 + n)⟩, .ok ("Authorization", "Bearer " ++ t), 0⟩) ∧
    (∀ now r, T0 + n - 30 ≤ now →
      (getAuthHeader ⟨some t, some (T0 + n)⟩ now r).refreshCalls = 1) := by
  refine ⟨?_, ?_, ?_, ?_, ?_⟩
  · simp [getAuthHeader, getToken, h0, refreshToken]
  · simp [getAuthHeader, getToken, h0, refreshToken]
  · simp [getAuthHeader, getToken, h0, refreshToken]
  · intro now r hnow
    have hv : isTokenValid ⟨some t, some (T0 + n)⟩ now = true := by
      simp [isTokenValid, ht, hnow]
    rw [getAuthHeader_of_valid _ _ _ hv]
    rfl
  · intro now r hnow
    have hv : isTokenValid ⟨some t, some (T0 + n)⟩ now = false := by
      simp only [isTokenValid, Bool.and_eq_false_iff]
      right
      simp only [decide_eq_false_iff_not, not_lt]
      omega
    cases r with
    | success tok m => simp [getAuthHeader, getToken, hv, refreshToken]
    | httpError status =>
      by_cases h4 : status = 401
      · simp [getAuthHeader, getToken, hv, refreshToken, h4]
      · by_cases h3 : status = 403 <;>
          simp [getAuthHeader, getToken, hv, refreshToken, h4, h3]
    | otherError message => simp [getAuthHeader, getToken, hv, refreshToken]

/-- Witness for C6 at the spec's own scenario: empty cache, `T0 = 0`,
`{access_token: "abc", expires_in: 3600}`; calls before 3570 hit the
cache, calls at or after 3570 refresh. -/
theorem C6_refresh_expiry_schedule_witness :
    (getAuthHeader TokenManagerState.initial 0 (.success "abc" 3600)).state =
      ⟨some "abc", some (0 + 3600)⟩ ∧
    (getAuthHeader TokenManagerState.initial 0 (.success "abc" 3600)).result =
      .ok ("Authorization", "Bearer " ++ "abc") ∧
    (getAuthHeader TokenManagerState.initial 0 (.success "abc" 3600)).refreshCalls = 1 ∧
    (∀ now r, now < 0 + 3600 - 30 →
      getAuthHeader ⟨some "abc", some (0 + 3600)⟩ now r =
        ⟨⟨some "abc", some (0 + 3600)⟩, .ok ("Authorization", "Bearer " ++ "abc"), 0⟩) ∧
    (∀ now r, 0 + 3600 - 30 ≤ now →
      (getAuthHeader ⟨some "abc", some (0 + 3600)⟩ now r).refreshCalls = 1) :=
  C6_refresh_expiry_schedule TokenManagerState.initial 0 "abc" 3600
    (by decide) (by decide)

/-! ## Claim C7: refresh rejected with 401/403 -/

/-- C7: when the token endpoint answers 401 or 403 (so the refresh is
actually attempted: the cached token is not valid), `get_auth_header`
raises an `AuthenticationError`, and afterwards no usable token is
cached: the stored fields are untouched, and since the cached token was
already invalid and `_is_token_valid` only compares against the fixed
stored expiry, every later call still finds it invalid. -/
theorem C7_refresh_401_403 (s : TokenManagerState) (now : Int) (status : Nat)
    (hstatus : status = 401 ∨ status = 403)
    (hinvalid : isTokenValid s now = false) :
    ((getAuthHeader s now (.httpError status)).result =
        .error (.authentication "Invalid API secret") ∨
      (getAuthHeader s now (.httpError status)).result =
        .error (.authentication "API secret not authorized")) ∧
    (getAuthHeader s now (.httpError status)).state = s ∧
    (∀ now₂, now ≤ now₂ →
      isTokenValid (getAuthHeader s now (.httpError status)).state now₂ = false) := by
  have hstate : (getAuthHeader s now (.httpError status)).state = s := by
    rcases hstatus with h | h <;> subst h <;>
      simp [getAuthHeader, getToken, hinvalid, refreshToken]
  refine ⟨?_, hstate, ?_⟩
  · rcases hstatus with h | h <;> subst h
    · exact Or.inl (by simp [getAuthHeader, getToken, hinvalid, refreshToken])
    · exact Or.inr (by simp [getAuthHeader, getToken, hinvalid, refreshToken])
  · intro now₂ hle
    rw [hstate]
    exact isTokenValid_false_mono s now now₂ hinvalid hle

/-- Witness for C7: a manager holding the expired token `"old"`
(expiry 40, skew-adjusted cutoff 10) queried at time 20 while the refresh
endpoint answers 401. -/
theorem C7_refresh_401_403_witness :
    ((getAuthHeader ⟨some "old", some 40⟩ 20 (.httpError 401)).result =
        .error (.authentication "Invalid API secret") ∨
      (getAuthHeader ⟨some "old", some 40⟩ 20 (.httpError 401)).result =
        .error (.authentication "API secret not authorized")) ∧
    (getAuthHeader ⟨some "old", some 40⟩ 20 (.httpError 401)).state =
      ⟨some "old", some 40⟩ ∧
    (∀ now₂, (20 : Int) ≤ now₂ →
      isTokenValid (getAuthHeader ⟨some "old", some 40⟩ 20 (.httpError 401)).state now₂ =
        false) :=
  C7_refresh_401_403 ⟨some "old", some 40⟩ 20 401 (Or.inl rfl) (by decide)

/-! ## Helper lemmas about the dispatch loop -/

/-- When the cached token is valid at the initial clock reading, the
dispatcher's pre-loop `get_auth_header` is a cache hit and the loop
starts with the cached bearer header, zero refreshes consumed. -/
theorem makeRequest_of_valid (maxRetries : Nat) (tm : TokenManagerState)
    (times : Nat → Int) (script : Nat → RefreshResult) (outcomes : Nat → AttemptOutcome)
    (hvalid : isTokenValid tm (times 0) = true) :
    makeRequest maxRetries tm times script outcomes =
      makeRequestLoop maxRetries outcomes script times tm 0 1
        ("Bearer " ++ tm.token.getD "") [] (maxRetries + 1) := by
  simp [makeRequest, getAuthHeader_of_valid _ _ _ hvalid]

/-- A loop facing only 401 responses, over a cache that stays valid,
re-sends the same cached header on every remaining attempt, performs no
refresh network call, and falls through to the final
`StarlinkClientError`. -/
theorem makeRequestLoop_all401 (maxRetries : Nat) (outcomes : Nat → AttemptOutcome)
    (script : Nat → RefreshResult) (times : Nat → Int) (tm : TokenManagerState)
    (hvalid : ∀ c, isTokenValid tm (times c) = true)
    (h401 : ∀ i, ∃ bj bt, outcomes i = .response 401 bj bt) :
    ∀ fuel k c sent,
      makeRequestLoop maxRetries outcomes script times tm k c
        ("Bearer " ++ tm.token.getD "") sent fuel =
      ⟨.error (.client (clientRetriesMsg maxRetries)), tm, k,
        sent ++ List.replicate fuel ("Bearer " ++ tm.token.getD "")⟩ := by
  intro fuel
  induction fuel with
  | zero => intro k c sent; simp [makeRequestLoop]
  | succ f ih =>
    intro k c sent
    obtain ⟨bj, bt, hout⟩ := h401 (maxRetries + 1 - (f + 1))
    have hah := getAuthHeader_of_valid tm (times c) (script k) (hvalid c)
    simp only [makeRequestLoop, hout, hah]
    simp only [if_true, Nat.add_zero]
    rw [ih k (c + 1) (sent ++ ["Bearer " ++ tm.token.getD ""])]
    simp [List.replicate_succ]

/-- A loop whose first `j - a` remaining attempts all raise transport
errors and whose attempt `j` returns a success response stops at attempt
`j` with that response. -/
theorem makeRequestLoop_prefix_success (maxRetries : Nat) (outcomes : Nat → AttemptOutcome)
    (script : Nat → RefreshResult) (times : Nat → Int) (tm : TokenManagerState)
    (msgs : Nat → String) (j st : Nat) (bj : Option String) (bt : String)
    (hj : j ≤ maxRetries)
    (hpref : ∀ i, i < j → outcomes i = .transportError (msgs i))
    (hout : outcomes j = .response st bj bt) (hst : st < 400) :
    ∀ fuel a, a + fuel = maxRetries + 1 → a ≤ j →
      ∀ k c hdr sent,
      makeRequestLoop maxRetries outcomes script times tm k c hdr sent fuel =
        ⟨.ok ⟨st, bj, bt⟩, tm, k, sent ++ List.replicate (j - a + 1) hdr⟩ := by
  intro fuel
  induction fuel with
  | zero => intro a ha haj; omega
  | succ f ih =>
    intro a ha haj k c hdr sent
    have hidx : maxRetries + 1 - (f + 1) = a := by omega
    by_cases heq : a = j
    · subst heq
      simp only [makeRequestLoop, hidx, hout]
      rw [if_pos hst]
      simp
    · have haj' : a < j := by omega
      have hf : f ≠ 0 := by omega
      simp only [makeRequestLoop, hidx, hpref a haj']
      rw [if_neg hf]
      rw [ih (a + 1) (by omega) (by omega) k c hdr (sent ++ [hdr])]
      have hrep : j - a + 1 = (j - (a + 1) + 1) + 1 := by omega
      rw [hrep]
      simp [List.replicate_succ]

/-- A loop whose first `j - a` remaining attempts all raise transport
errors and whose attempt `j` returns a non-success status other than 401
stops at attempt `j` with a `StarlinkAPIError` carrying that status and
the parsed detail. -/
theorem makeRequestLoop_prefix_apiError (maxRetries : Nat) (outcomes : Nat → AttemptOutcome)
    (script : Nat → RefreshResult) (times : Nat → Int) (tm : TokenManagerState)
    (msgs : Nat → String) (j st : Nat) (bj : Option String) (bt : String)
    (hj : j ≤ maxRetries)
    (hpref : ∀ i, i < j → outcomes i = .transportError (msgs i))
    (hout : outcomes j = .response st bj bt) (hst : 400 ≤ st) (hne : st ≠ 401) :
    ∀ fuel a, a + fuel = maxRetries + 1 → a ≤ j →
      ∀ k c hdr sent,
      makeRequestLoop maxRetries outcomes script times tm k c hdr sent fuel =
        ⟨.error (.api (apiFailedMsg st) (some st) (some (detailOf bj bt))), tm, k,
          sent ++ List.replicate (j - a + 1) hdr⟩ := by
  intro fuel
  induction fuel with
  | zero => intro a ha haj; omega
  | succ f ih =>
    intro a ha haj k c hdr sent
    have hidx : maxRetries + 1 - (f + 1) = a := by omega
    by_cases heq : a = j
    · subst heq
      simp only [makeRequestLoop, hidx, hout]
      rw [if_neg (by omega), if_neg hne]
      simp
    · have haj' : a < j := by omega
      have hf : f ≠ 0 := by omega
      simp only [makeRequestLoop, hidx, hpref a haj']
      rw [if_neg hf]
      rw [ih (a + 1) (by omega) (by omega) k c hdr (sent ++ [hdr])]
      have hrep : j - a + 1 = (j - (a + 1) + 1) + 1 := by omega
      rw [hrep]
      simp [List.replicate_succ]

/-- A loop all of whose remaining attempts raise transport errors
exhausts them and fails with the `StarlinkClientError` carrying the last
attempt's cause. -/
theorem makeRequestLoop_all_transport (maxRetries : Nat) (outcomes : Nat → AttemptOutcome)
    (script : Nat → RefreshResult) (times : Nat → Int) (tm : TokenManagerState)
    (msgs : Nat → String)
    (hfail : ∀ i, outcomes i = .transportError (msgs i)) :
    ∀ fuel a, a + fuel = maxRetries + 1 → 1 ≤ fuel →
      ∀ k c hdr sent,
      makeRequestLoop maxRetries outcomes script times tm k c hdr sent fuel =
        ⟨.error (.client (clientRetriesCauseMsg maxRetries (msgs maxRetries))), tm, k,
          sent ++ List.replicate fuel hdr⟩ := by
  intro fuel
  induction fuel with
  | zero => intro a ha hge; omega
  | succ f ih =>
    intro a ha hge k c hdr sent
    have hidx : maxRetries + 1 - (f + 1) = a := by omega
    by_cases hf : f = 0
    · subst hf
      have haR : a = maxRetries := by omega
      simp only [makeRequestLoop, hidx, hfail a]
      simp only [if_true]
      rw [haR]
      simp
    · simp only [makeRequestLoop, hidx, hfail a]
      rw [if_neg hf]
      rw [ih (a + 1) (by omega) (by omega) k c hdr (sent ++ [hdr])]
      simp [List.replicate_succ]

/-! ## Claim C1: behaviour of the dispatcher on repeated 401 responses -/

/-- C1 counterexample: the claim "a first-attempt 401 triggers exactly one
forced refresh and exactly one retried attempt; a second 401 fails with an
Authentication error and no third attempt is made" is false.  With the
default `max_retries = 3`, a still-fresh cached token `"tok"` and a server
answering 401 to every attempt, `_make_request` issues **four** attempts,
performs **zero** refresh network calls (`get_auth_header` is a cache hit,
nothing forces a refresh), re-sends the same bearer token every time, and
finally raises `StarlinkClientError`, not `AuthenticationError`. -/
theorem C1_counterexample :
    (makeRequest 3 ⟨some "tok", some 1000⟩ (fun _ => 0) (fun _ => .otherError "unused")
        (fun _ => .response 401 none "")).result =
      .error (.client "Request failed after 3 retries") ∧
    (makeRequest 3 ⟨some "tok", some 1000⟩ (fun _ => 0) (fun _ => .otherError "unused")
        (fun _ => .response 401 none "")).refreshCalls = 0 ∧
    (makeRequest 3 ⟨some "tok", some 1000⟩ (fun _ => 0) (fun _ => .otherError "unused")
        (fun _ => .response 401 none "")).attemptHeaders =
      ["Bearer tok", "Bearer tok", "Bearer tok", "Bearer tok"] :=
  ⟨rfl, rfl, rfl⟩

/-- C1 (amended): on a 401 the dispatcher re-obtains the header through the
cache-respecting `get_token` path — nothing bypasses the freshness cache —
so while the cached token stays within its freshness window the same
bearer header is re-sent and no refresh network call happens; 401
responses consume the shared retry budget, so a permanently-rejecting
server is answered with `maxRetries + 1` total attempts, after which the
call fails with `StarlinkClientError` (not `AuthenticationError`). -/
theorem C1_amended_401_policy (maxRetries : Nat) (tm : TokenManagerState)
    (times : Nat → Int) (script : Nat → RefreshResult) (outcomes : Nat → AttemptOutcome)
    (hvalid : ∀ c, isTokenValid tm (times c) = true)
    (h401 : ∀ i, ∃ bj bt, outcomes i = .response 401 bj bt) :
    (makeRequest maxRetries tm times script outcomes).result =
      .error (.client (clientRetriesMsg maxRetries)) ∧
    (makeRequest maxRetries tm times script outcomes).refreshCalls = 0 ∧
    (makeRequest maxRetries tm times script outcomes).attemptHeaders =
      List.replicate (maxRetries + 1) ("Bearer " ++ tm.token.getD "") := by
  rw [makeRequest_of_valid maxRetries tm times script outcomes (hvalid 0)]
  rw [makeRequestLoop_all401 maxRetries outcomes script times tm hvalid h401
    (maxRetries + 1) 0 1 []]
  exact ⟨rfl, rfl, by simp⟩

/-- Witness for the amended C1: `max_retries = 1`, fresh token `"tok"`,
all-401 server; two attempts, no refresh, final `StarlinkClientError`. -/
theorem C1_amended_401_policy_witness :
    (makeRequest 1 ⟨some "tok", some 1000⟩ (fun _ => 0) (fun _ => .otherError "unused")
        (fun _ => .response 401 none "")).result =
      .error (.client (clientRetriesMsg 1)) ∧
    (makeRequest 1 ⟨some "tok", some 1000⟩ (fun _ => 0) (fun _ => .otherError "unused")
        (fun _ => .response 401 none "")).refreshCalls = 0 ∧
    (makeRequest 1 ⟨some "tok", some 1000⟩ (fun _ => 0) (fun _ => .otherError "unused")
        (fun _ => .response 401 none "")).attemptHeaders =
      List.replicate (1 + 1)
        ("Bearer " ++ (TokenManagerState.mk (some "tok") (some 1000)).token.getD "") :=
  C1_amended_401_policy 1 ⟨some "tok", some 1000⟩ (fun _ => 0)
    (fun _ => .otherError "unused") (fun _ => .response 401 none "")
    (fun c => by show isTokenValid ⟨some "tok", some 1000⟩ 0 = true; decide)
    (fun i => ⟨none, "", rfl⟩)

/-! ## Claim C5: transport-failure retry budget -/

/-- C5: a dispatched request (auth header obtained from the fresh cache)
whose every attempt raises a transport-level failure makes exactly
`maxRetries + 1` attempts and then fails with `StarlinkClientError`; and
if an earlier attempt `j` succeeds after transport failures, the success
response is returned after exactly `j + 1` attempts. -/
theorem C5_transport_retry_policy (maxRetries : Nat) (tm : TokenManagerState)
    (times : Nat → Int) (script : Nat → RefreshResult) (outcomes : Nat → AttemptOutcome)
    (msgs : Nat → String)
    (hvalid : isTokenValid tm (times 0) = true) :
    ((∀ i, outcomes i = .transportError (msgs i)) →
      (makeRequest maxRetries tm times script outcomes).result =
        .error (.client (clientRetriesCauseMsg maxRetries (msgs maxRetries))) ∧
      (makeRequest maxRetries tm times script outcomes).attemptHeaders.length =
        maxRetries + 1) ∧
    (∀ j st bj bt, j ≤ maxRetries →
      (∀ i, i < j → outcomes i = .transportError (msgs i)) →
      outcomes j = .response st bj bt → st < 400 →
      (makeRequest maxRetries tm times script outcomes).result = .ok ⟨st, bj, bt⟩ ∧
      (makeRequest maxRetries tm times script outcomes).attemptHeaders.length = j + 1) := by
  rw [makeRequest_of_valid maxRetries tm times script outcomes hvalid]
  constructor
  · intro hfail
    rw [makeRequestLoop_all_transport maxRetries outcomes script times tm msgs hfail
      (maxRetries + 1) 0 (by omega) (by omega) 0 1 ("Bearer " ++ tm.token.getD "") []]
    simp
  · intro j st bj bt hj hpref hout hst
    rw [makeRequestLoop_prefix_success maxRetries outcomes script times tm msgs j st bj bt
      hj hpref hout hst (maxRetries + 1) 0 (by omega) (by omega) 0 1
      ("Bearer " ++ tm.token.getD "") []]
    simp

/-- Witness for C5 at the spec's scenario (`maxRetries = 3`): every
attempt fails in transport, so four attempts are made and the call fails
with the `StarlinkClientError` carrying the last cause. -/
theorem C5_transport_retry_policy_witness :
    (makeRequest 3 ⟨some "tok", some 1000⟩ (fun _ => 0) (fun _ => .otherError "unused")
        (fun _ => .transportError "conn refused")).result =
      .error (.client (clientRetriesCauseMsg 3 "conn refused")) ∧
    (makeRequest 3 ⟨some "tok", some 1000⟩ (fun _ => 0) (fun _ => .otherError "unused")
        (fun _ => .transportError "conn refused")).attemptHeaders.length = 3 + 1 :=
  (C5_transport_retry_policy 3 ⟨some "tok", some 1000⟩ (fun _ => 0)
    (fun _ => .otherError "unused") (fun _ => .transportError "conn refused")
    (fun _ => "conn refused")
    (by show isTokenValid ⟨some "tok", some 1000⟩ 0 = true; decide)).1
    (fun i => rfl)

/-! ## Claim C8: immediate failure on non-401 error statuses -/

/-- Shared form of the non-401 error-status behaviour of `_make_request`
(used for both the C8 and C9 claims): after a prefix of transport
failures, the attempt returning status `st` (`400 ≤ st`, `st ≠ 401`) is
the last one, and the call raises `StarlinkAPIError` with that status and
the parsed detail. -/
theorem makeRequest_apiError (maxRetries : Nat) (tm : TokenManagerState)
    (times : Nat → Int) (script : Nat → RefreshResult) (outcomes : Nat → AttemptOutcome)
    (msgs : Nat → String) (j st : Nat) (bj : Option String) (bt : String)
    (hvalid : isTokenValid tm (times 0) = true) (hj : j ≤ maxRetries)
    (hpref : ∀ i, i < j → outcomes i = .transportError (msgs i))
    (hout : outcomes j = .response st bj bt) (hst : 400 ≤ st) (hne : st ≠ 401) :
    (makeRequest maxRetries tm times script outcomes).result =
      .error (.api (apiFailedMsg st) (some st) (some (detailOf bj bt))) ∧
    (makeRequest maxRetries tm times script outcomes).attemptHeaders.length = j + 1 := by
  rw [makeRequest_of_valid maxRetries tm times script outcomes hvalid]
  rw [makeRequestLoop_prefix_apiError maxRetries outcomes script times tm msgs j st bj bt
    hj hpref hout hst hne (maxRetries + 1) 0 (by omega) (by omega) 0 1
    ("Bearer " ++ tm.token.getD "") []]
  simp

/-- C8: when the attempt that first yields an HTTP response returns a
non-success status other than 401, the dispatcher stops immediately —
zero additional attempts — and raises a `StarlinkAPIError` carrying that
status code and the body parsed as JSON when possible, else the raw
text. -/
theorem C8_api_error_immediate (maxRetries : Nat) (tm : TokenManagerState)
    (times : Nat → Int) (script : Nat → RefreshResult) (outcomes : Nat → AttemptOutcome)
    (msgs : Nat → String) (j st : Nat) (bj : Option String) (bt : String)
    (hvalid : isTokenValid tm (times 0) = true) (hj : j ≤ maxRetries)
    (hpref : ∀ i, i < j → outcomes i = .transportError (msgs i))
    (hout : outcomes j = .response st bj bt) (hst : 400 ≤ st) (hne : st ≠ 401) :
    (makeRequest maxRetries tm times script outcomes).result =
      .error (.api (apiFailedMsg st) (some st) (some (detailOf bj bt))) ∧
    (makeRequest maxRetries tm times script outcomes).attemptHeaders.length = j + 1 :=
  makeRequest_apiError maxRetries tm times script outcomes msgs j st bj bt
    hvalid hj hpref hout hst hne

/-- Witness for C8 at the spec's scenario: HTTP 500 on the first attempt,
JSON body unavailable, raw text surfaced as detail; exactly one attempt. -/
theorem C8_api_error_immediate_witness :
    (makeRequest 3 ⟨some "tok", some 1000⟩ (fun _ => 0) (fun _ => .otherError "unused")
        (fun _ => .response 500 none "server exploded")).result =
      .error (.api (apiFailedMsg 500) (some 500) (some (detailOf none "server exploded"))) ∧
    (makeRequest 3 ⟨some "tok", some 1000⟩ (fun _ => 0) (fun _ => .otherError "unused")
        (fun _ => .response 500 none "server exploded")).attemptHeaders.length = 0 + 1 :=
  C8_api_error_immediate 3 ⟨some "tok", some 1000⟩ (fun _ => 0)
    (fun _ => .otherError "unused") (fun _ => .response 500 none "server exploded")
    (fun _ => "") 0 500 none "server exploded" (by decide) (by omega)
    (fun i hi => absurd hi (by omega)) rfl (by omega) (by omega)

/-! ## Claim C9: which error class 429/422/404/403 surface as -/

/-- C9 counterexample: the claim that a 429 failure surfaces as the
Rate-limit specialization is false — `_make_request` raises the plain
base `StarlinkAPIError` for every non-401 error status; `RateLimitError`
(and the other three specializations defined in `exceptions.py`) are
never raised by the dispatcher.  Concretely, a first-attempt 429 with a
JSON body yields `StarlinkAPIError(status_code=429)`, which is not any
specialized subclass. -/
theorem C9_counterexample :
    (makeRequest 3 ⟨some "tok", some 1000⟩ (fun _ => 0) (fun _ => .otherError "unused")
        (fun _ => .response 429 (some "rate limit detail") "raw body")).result =
      .error (.api "API request failed: 429" (some 429)
        (some (.jsonDetail "rate limit detail"))) ∧
    SDKError.isSpecialized
      (.api "API request failed: 429" (some 429) (some (.jsonDetail "rate limit detail"))) =
      false ∧
    SDKError.isRateLimit
      (.api "API request failed: 429" (some 429) (some (.jsonDetail "rate limit detail"))) =
      false :=
  ⟨rfl, rfl, rfl⟩

/-- C9 (amended): for 429, 422, 404 and 403 outside the 401 path the
dispatcher surfaces the plain base `StarlinkAPIError` carrying that
status code and the parsed detail — not the specializations.
`exceptions.py` does define `RateLimitError`, `ValidationError`,
`NotFoundError` and `PermissionError` keyed to exactly those status codes
(with the optional retry-after hint on `RateLimitError`), but
`_make_request` never raises them. -/
theorem C9_specializations_not_raised (maxRetries : Nat) (tm : TokenManagerState)
    (times : Nat → Int) (script : Nat → RefreshResult) (outcomes : Nat → AttemptOutcome)
    (msgs : Nat → String) (j st : Nat) (bj : Option String) (bt : String)
    (hvalid : isTokenValid tm (times 0) = true) (hj : j ≤ maxRetries)
    (hpref : ∀ i, i < j → outcomes i = .transportError (msgs i))
    (hout : outcomes j = .response st bj bt)
    (hst : st = 429 ∨ st = 422 ∨ st = 404 ∨ st = 403) :
    (makeRequest maxRetries tm times script outcomes).result =
      .error (.api (apiFailedMsg st) (some st) (some (detailOf bj bt))) ∧
    SDKError.isSpecialized (.api (apiFailedMsg st) (some st) (some (detailOf bj bt))) =
      false ∧
    (∀ m ra dt, (mkRateLimitError m ra dt).statusCodeOf = some 429 ∧
      (mkRateLimitError m ra dt).isRateLimit = true) ∧
    (∀ m dt, (mkValidationError m dt).statusCodeOf = some 422) ∧
    (∀ m dt, (mkNotFoundError m dt).statusCodeOf = some 404) ∧
    (∀ m dt, (mkPermissionError m dt).statusCodeOf = some 403) := by
  have h400 : 400 ≤ st := by omega
  have hne : st ≠ 401 := by omega
  refine ⟨?_, rfl, fun m ra dt => ⟨rfl, rfl⟩, fun m dt => rfl, fun m dt => rfl,
    fun m dt => rfl⟩
  exact (makeRequest_apiError maxRetries tm times script outcomes msgs j st bj bt
    hvalid hj hpref hout h400 hne).1

/-- Witness for the amended C9: first-attempt 404 with a JSON body. -/
theorem C9_specializations_not_raised_witness :
    (makeRequest 3 ⟨some "tok", some 1000⟩ (fun _ => 0) (fun _ => .otherError "unused")
        (fun _ => .response 404 (some "missing") "raw")).result =
      .error (.api (apiFailedMsg 404) (some 404) (some (detailOf (some "missing") "raw"))) ∧
    SDKError.isSpecialized
      (.api (apiFailedMsg 404) (some 404) (some (detailOf (some "missing") "raw"))) =
      false ∧
    (∀ m ra dt, (mkRateLimitError m ra dt).statusCodeOf = some 429 ∧
      (mkRateLimitError m ra dt).isRateLimit = true) ∧
    (∀ m dt, (mkValidationError m dt).statusCodeOf = some 422) ∧
    (∀ m dt, (mkNotFoundError m dt).statusCodeOf = some 404) ∧
    (∀ m dt, (mkPermissionError m dt).statusCodeOf = some 403) :=
  C9_specializations_not_raised 3 ⟨some "tok", some 1000⟩ (fun _ => 0)
    (fun _ => .otherError "unused") (fun _ => .response 404 (some "missing") "raw")
    (fun _ => "") 0 404 (some "missing") "raw" (by decide) (by omega)
    (fun i hi => absurd hi (by omega)) rfl (by omega)

/-! ## Claim C3: client construction is broken by the `timeout` kwarg -/

/-- C3: for every valid (resolvable) environment name, constructing
`StarlinkClient` fails before any API namespace is installed:
`StarlinkClient.__init__` calls
`TokenManager(base_url=..., api_secret=..., timeout=timeout)` but
`TokenManager.__init__` has no `timeout` parameter, so Python raises
`TypeError` at call binding — before the credential is even looked at —
and construction never succeeds. -/
theorem C3_construction_always_fails (environment envVarEnvironment : Option String)
    (hvalid : (ENVIRONMENT_URLS.find? (fun p =>
        p.1 = strLower (pyStrOr environment (pyStrOr envVarEnvironment "production")))).isSome =
        true) :
    StarlinkClient.init environment envVarEnvironment =
      .error (.typeError "TokenManager got an unexpected keyword argument timeout") := by
  have hb : bindKwargs tokenManagerInitParams tokenManagerCallKwargs =
      .error (.typeError "TokenManager got an unexpected keyword argument timeout") := rfl
  unfold StarlinkClient.init
  obtain ⟨p, hp⟩ := Option.isSome_iff_exists.mp hvalid
  simp only [hp, hb]

/-- Witness for C3: explicit environment `"production"`. -/
theorem C3_construction_always_fails_witness :
    StarlinkClient.init (some "production") none =
      .error (.typeError "TokenManager got an unexpected keyword argument timeout") :=
  C3_construction_always_fails (some "production") none (by decide)

/-! ## Claim C10: limit clamping in the facades -/

/-- C10: the `limit` transmitted by `TerminalsAPI.list`, `AlertsAPI.list`
and `utils.build_query_params` is `min(max(limit, 1), 500)` — always in
`[1, 500]`, and the identity on in-range values. -/
theorem C10_limit_clamped (limit : Int)
    (status severity terminalId fromTime toTime cursor : Option String)
    (alertStatus : String) :
    lookupParam (TerminalsAPI.listParams status limit cursor) "limit" =
      some (.intVal (min (max limit 1) 500)) ∧
    lookupParam
      (AlertsAPI.listParams alertStatus severity terminalId fromTime toTime limit cursor)
      "limit" = some (.intVal (min (max limit 1) 500)) ∧
    buildQueryParamsLimit (some limit) = some (toString (min (max limit 1) 500)) ∧
    1 ≤ min (max limit 1) 500 ∧ min (max limit 1) 500 ≤ 500 ∧
    (1 ≤ limit → limit ≤ 500 → min (max limit 1) 500 = limit) := by
  refine ⟨?_, ?_, rfl, ?_, ?_, ?_⟩
  · unfold TerminalsAPI.listParams lookupParam
    cases hs : pyTruthy status <;> cases hc : pyTruthy cursor <;>
      simp [List.find?]
  · unfold AlertsAPI.listParams lookupParam
    cases h1 : pyTruthy severity <;> cases h2 : pyTruthy terminalId <;>
      cases h3 : pyTruthy fromTime <;> cases h4 : pyTruthy toTime <;>
      cases h5 : pyTruthy cursor <;> simp [List.find?]
  · omega
  · omega
  · intro h1 h500; omega

/-- Witness for C10 at a concrete in-range limit. -/
theorem C10_limit_clamped_witness :
    lookupParam (TerminalsAPI.listParams none 250 none) "limit" =
      some (.intVal (min (max 250 1) 500)) ∧
    lookupParam (AlertsAPI.listParams "open" none none none none 250 none) "limit" =
      some (.intVal (min (max 250 1) 500)) ∧
    buildQueryParamsLimit (some 250) = some (toString (min (max (250 : Int) 1) 500)) ∧
    (1 : Int) ≤ min (max 250 1) 500 ∧ min (max (250 : Int) 1) 500 ≤ 500 ∧
    ((1 : Int) ≤ 250 → (250 : Int) ≤ 500 → min (max (250 : Int) 1) 500 = 250) :=
  C10_limit_clamped 250 none none none none none none "open"

/-! ## Claim C4: single-flight refresh under concurrent callers -/

/-- One step preserves the lock-ownership invariant. -/
theorem step_preserves_LockInv (now : Int) (script : Nat → RefreshResult)
    (gs : ConcState) (i : Nat) (hinv : LockInv gs) :
    LockInv (step now script gs i) := by
  cases hpc : gs.pcs i with
  | start =>
    simp only [step, hpc]
    by_cases hv : isTokenValid gs.tm now = true
    · rw [if_pos hv]
      intro j hj
      by_cases hji : j = i
      · subst hji; simp [updFn] at hj
      · exact hinv j (by simpa [updFn, hji] using hj)
    · rw [if_neg hv]
      intro j hj
      by_cases hji : j = i
      · subst hji; simp [updFn] at hj
      · exact hinv j (by simpa [updFn, hji] using hj)
  | awaitLock =>
    cases hlock : gs.lock with
    | none =>
      simp only [step, hpc, hlock]
      intro j hj
      by_cases hji : j = i
      · subst hji; rfl
      · have hj' : gs.pcs j = .inCritical ∨ ∃ idx, gs.pcs j = .refreshing idx := by
          simpa [updFn, hji] using hj
        exact absurd (hinv j hj') (by simp [hlock])
    | some l =>
      simp only [step, hpc, hlock]
      exact hinv
  | inCritical =>
    have hl : gs.lock = some i := hinv i (Or.inl hpc)
    simp only [step, hpc]
    by_cases hv : isTokenValid gs.tm now = true
    · rw [if_pos hv]
      intro j hj
      by_cases hji : j = i
      · subst hji; simp [updFn] at hj
      · have hj' : gs.pcs j = .inCritical ∨ ∃ idx, gs.pcs j = .refreshing idx := by
          simpa [updFn, hji] using hj
        have := hinv j hj'
        rw [hl] at this
        exact absurd (Option.some.inj this).symm hji
    · rw [if_neg hv]
      intro j hj
      by_cases hji : j = i
      · subst hji; exact hl
      · exact hinv j (by simpa [updFn, hji] using hj)
  | refreshing idx =>
    simp only [step, hpc]
    rcases hres : refreshToken gs.tm now (script idx) with ⟨tm2, res⟩
    have hl : gs.lock = some i := hinv i (Or.inr ⟨idx, hpc⟩)
    cases res with
    | ok u =>
      intro j hj
      by_cases hji : j = i
      · subst hji; simp [updFn] at hj
      · have hj' : gs.pcs j = .inCritical ∨ ∃ idx2, gs.pcs j = .refreshing idx2 := by
          simpa [updFn, hji] using hj
        have := hinv j hj'
        rw [hl] at this
        exact absurd (Option.some.inj this).symm hji
    | error e =>
      intro j hj
      by_cases hji : j = i
      · subst hji; simp [updFn] at hj
      · have hj' : gs.pcs j = .inCritical ∨ ∃ idx2, gs.pcs j = .refreshing idx2 := by
          simpa [updFn, hji] using hj
        have := hinv j hj'
        rw [hl] at this
        exact absurd (Option.some.inj this).symm hji
  | doneOk t =>
    simp only [step, hpc]
    exact hinv
  | doneErr e =>
    simp only [step, hpc]
    exact hinv

/-- The lock-ownership invariant holds along every schedule. -/
theorem runSched_preserves_LockInv (now : Int) (script : Nat → RefreshResult)
    (sched : List Nat) :
    ∀ gs, LockInv gs → LockInv (runSched now script gs sched) := by
  induction sched with
  | nil => intro gs h; exact h
  | cons i rest ih =>
    intro gs h
    exact ih (step now script gs i) (step_preserves_LockInv now script gs i h)

/-- The invariant holds initially: every thread is at `start`. -/
theorem LockInv_initial : LockInv ConcState.initial := by
  intro i hi
  simp [ConcState.initial] at hi

/-- C4 counterexample: the claim that "every caller arriving while a
refresh is in flight waits for that refresh's outcome and reuses its
result (returned token or propagated failure) instead of issuing a second
refresh" is false.  Concrete interleaving of two callers of `get_token`
on a fresh manager at time 0, with the token endpoint answering HTTP 500
to the first refresh and success to the second: after `[0, 0, 0]` thread 0
holds the lock with its refresh in flight; thread 1 then arrives (its
first validity check runs while that refresh is in flight) and blocks on
the lock; when thread 0's refresh fails, thread 1 does **not** reuse that
failure — it acquires the lock, re-checks, and issues a **second**
refresh network call (`nextIdx = 2`), ending with a token while thread 0
raised. -/
theorem C4_counterexample :
    (runSched 0 (fun k => if k = 0 then .httpError 500 else .success "b" 3600)
        ConcState.initial [0, 0, 0]).pcs 0 = .refreshing 0 ∧
    (runSched 0 (fun k => if k = 0 then .httpError 500 else .success "b" 3600)
        ConcState.initial [0, 0, 0, 1]).pcs 1 = .awaitLock ∧
    (runSched 0 (fun k => if k = 0 then .httpError 500 else .success "b" 3600)
        ConcState.initial [0, 0, 0, 1, 1, 0, 1, 1, 1]).pcs 0 =
      .doneErr (.authentication (tokenRefreshFailedStatusMsg 500)) ∧
    (runSched 0 (fun k => if k = 0 then .httpError 500 else .success "b" 3600)
        ConcState.initial [0, 0, 0, 1, 1, 0, 1, 1, 1]).pcs 1 = .doneOk "b" ∧
    (runSched 0 (fun k => if k = 0 then .httpError 500 else .success "b" 3600)
        ConcState.initial [0, 0, 0, 1, 1, 0, 1, 1, 1]).nextIdx = 2 := by
  refine ⟨by decide, by decide, by decide, by decide, by decide⟩

/-- C4 (amended): the *at-most-one-in-flight* half of the claim holds —
the refresh lock guarantees that in every state reachable from a fresh
manager under any schedule and any refresh script, at most one thread has
a refresh network call in flight (any two threads observed mid-refresh
are the same thread).  A caller arriving during an in-flight refresh does
wait for the lock, but after a *failed* refresh (or one that stored an
already-within-skew token) the waiter finds the cache still invalid and
issues its own refresh rather than reusing the first caller's outcome
(see the counterexample). -/
theorem C4_single_flight_amended (now : Int) (script : Nat → RefreshResult)
    (sched : List Nat) (i j idx1 idx2 : Nat)
    (hi : (runSched now script ConcState.initial sched).pcs i = .refreshing idx1)
    (hj : (runSched now script ConcState.initial sched).pcs j = .refreshing idx2) :
    i = j := by
  have hInv : LockInv (runSched now script ConcState.initial sched) :=
    runSched_preserves_LockInv now script sched ConcState.initial LockInv_initial
  have h1 := hInv i (Or.inr ⟨idx1, hi⟩)
  have h2 := hInv j (Or.inr ⟨idx2, hj⟩)
  rw [h1] at h2
  exact Option.some.inj h2

/-- Witness for the amended C4: under the schedule `[0, 0, 0]` thread 0 is
mid-refresh, and the theorem applied to that state (both threads
instantiated to 0) closes. -/
theorem C4_single_flight_amended_witness :
    (runSched 0 (fun _ => RefreshResult.success "t" 3600) ConcState.initial
        [0, 0, 0]).pcs 0 = .refreshing 0 ∧ (0 : Nat) = 0 :=
  ⟨by decide,
    C4_single_flight_amended 0 (fun _ => RefreshResult.success "t" 3600) [0, 0, 0]
      0 0 0 0 (by decide) (by decide)⟩

end StarlinkSDK
